import Mathlib

/-!
Shallow embedding of the OHE overhead-wire measurement pipeline:
`ohe/processing/calibration.py`, `ohe/processing/measurement.py`,
`ohe/processing/detector.py`, `ohe/rules/engine.py`,
`ohe/logging_/log_worker.py` and `ohe/logging_/session.py`.

Python floats are modelled as exact rationals (ℚ): every arithmetic
operation the embedded code performs is addition, subtraction,
multiplication, division, absolute value, min/max and comparison, so ℚ
is a faithful model up to floating-point rounding.  Opaque numeric
kernels (cv2.Canny, cv2.HoughLinesP, scipy.optimize.curve_fit,
math.hypot) are modelled as explicit oracle parameters; the surrounding
control flow, which the claims are about, is embedded exactly.
-/

/-- Python `int()` applied to a float: truncation toward zero. -/
def pyInt (q : ℚ) : ℤ := if 0 ≤ q then q.floor else -((-q).floor)

/- ------------------------------------------------------------------
   processing/calibration.py — CalibrationModel
   (`track_centre_x_px` is an `int` in the source; it only ever enters
   float arithmetic, so it is carried here as a rational.)
------------------------------------------------------------------- -/

structure CalibrationModel where
  px_per_mm : ℚ
  track_centre_x_px : ℚ
  image_width_px : ℤ
  image_height_px : ℤ
deriving DecidableEq, Repr

/-- `CalibrationModel.px_to_mm`: `pixels / self.px_per_mm`. -/
def CalibrationModel.px_to_mm (c : CalibrationModel) (pixels : ℚ) : ℚ :=
  pixels / c.px_per_mm

/-- `CalibrationModel.mm_to_px`: `mm * self.px_per_mm`. -/
def CalibrationModel.mm_to_px (c : CalibrationModel) (mm : ℚ) : ℚ :=
  mm * c.px_per_mm

/-- `CalibrationModel.stagger_from_centre_px`:
`self.px_to_mm(wire_centre_x_px - self.track_centre_x_px)`. -/
def CalibrationModel.stagger_from_centre_px (c : CalibrationModel) (wire_centre_x_px : ℚ) : ℚ :=
  c.px_to_mm (wire_centre_x_px - c.track_centre_x_px)

/- ------------------------------------------------------------------
   core/models.py — data-transfer objects used by the claims
------------------------------------------------------------------- -/

/-- `WireCandidate` from `core/models.py` (the optional ndarray `mask`
field, unused by every embedded function, is elided). -/
structure WireCandidate where
  frame_id : ℕ
  timestamp_ms : ℚ
  bbox_x : ℤ := 0
  bbox_y : ℤ := 0
  bbox_w : ℤ := 0
  bbox_h : ℤ := 0
  centre_x : ℚ := 0
  centre_y : ℚ := 0
  diameter_px : ℚ := 0
  confidence : ℚ := 0
deriving DecidableEq, Repr

/-- `Measurement` from `core/models.py`. -/
structure Measurement where
  frame_id : ℕ
  timestamp_ms : ℚ
  stagger_mm : Option ℚ
  diameter_mm : Option ℚ
  confidence : ℚ
  wire_bbox : Option (ℤ × ℤ × ℤ × ℤ) := none
  wire_centre_px : Option (ℚ × ℚ) := none
deriving DecidableEq, Repr

/-- `Anomaly` from `core/models.py`.  The human-readable `message`
(a float-formatting f-string in the source) is elided: no embedded
function reads it and no claim mentions it. -/
structure Anomaly where
  frame_id : ℕ
  timestamp_ms : ℚ
  anomaly_type : String
  value : ℚ
  threshold : ℚ
  severity : String
deriving DecidableEq, Repr

/- ------------------------------------------------------------------
   processing/measurement.py — MeasurementEngine.compute
------------------------------------------------------------------- -/

/-- The single field of `ProcessingConfig` that `MeasurementEngine`
reads. -/
structure ProcessingConfig where
  min_detection_confidence : ℚ
deriving DecidableEq, Repr

/-- `MeasurementEngine.compute`: low confidence yields a Measurement
with both physical fields `None`; otherwise the candidate geometry is
translated by the ROI offsets and converted through the calibration. -/
def MeasurementEngine.compute (cal : CalibrationModel) (cfg : ProcessingConfig)
    (candidate : WireCandidate) (roi_offset_x roi_offset_y : ℤ) : Measurement :=
  if candidate.confidence < cfg.min_detection_confidence then
    { frame_id := candidate.frame_id
      timestamp_ms := candidate.timestamp_ms
      stagger_mm := none
      diameter_mm := none
      confidence := candidate.confidence }
  else
    let full_cx : ℚ := candidate.centre_x + (roi_offset_x : ℚ)
    let full_cy : ℚ := candidate.centre_y + (roi_offset_y : ℚ)
    let stagger_mm : ℚ := cal.stagger_from_centre_px full_cx
    let diameter_mm : Option ℚ :=
      if 0 < candidate.diameter_px then some (cal.px_to_mm candidate.diameter_px) else none
    let wire_bbox : ℤ × ℤ × ℤ × ℤ :=
      (candidate.bbox_x + roi_offset_x, candidate.bbox_y + roi_offset_y,
       candidate.bbox_w, candidate.bbox_h)
    { frame_id := candidate.frame_id
      timestamp_ms := candidate.timestamp_ms
      stagger_mm := some stagger_mm
      diameter_mm := diameter_mm
      confidence := candidate.confidence
      wire_bbox := some wire_bbox
      wire_centre_px := some (full_cx, full_cy) }

/- ------------------------------------------------------------------
   Sample values used by witness theorems
------------------------------------------------------------------- -/

/-- Sample calibration: 10 px/mm, track centre at x = 500 px. -/
def calSample : CalibrationModel :=
  { px_per_mm := 10, track_centre_x_px := 500,
    image_width_px := 1920, image_height_px := 1080 }

/-- Sample detection candidate with full geometry populated
(confidence 1 = a segment spanning the whole ROI width). -/
def candSample : WireCandidate :=
  { frame_id := 7, timestamp_ms := 1234,
    bbox_x := 40, bbox_y := 10, bbox_w := 120, bbox_h := 16,
    centre_x := 100, centre_y := 18, diameter_px := 12, confidence := 1 }

/- ------------------------------------------------------------------
   Theorems
------------------------------------------------------------------- -/

/-- C8: for every calibration with positive scale, `mm_to_px` inverts
`px_to_mm` exactly, the stagger of the track centre itself is zero, and
the stagger of a point `d` pixels right of centre is `d / px_per_mm`
(positive meaning right of centre). -/
theorem C8_calibration_algebra (c : CalibrationModel) (x d : ℚ)
    (hpos : 0 < c.px_per_mm) :
    c.mm_to_px (c.px_to_mm x) = x ∧
    c.stagger_from_centre_px c.track_centre_x_px = 0 ∧
    c.stagger_from_centre_px (c.track_centre_x_px + d) = d / c.px_per_mm := by
  have hne : c.px_per_mm ≠ 0 := ne_of_gt hpos
  refine ⟨?_, ?_, ?_⟩
  · simp [CalibrationModel.mm_to_px, CalibrationModel.px_to_mm, div_mul_cancel₀, hne]
  · simp [CalibrationModel.stagger_from_centre_px, CalibrationModel.px_to_mm]
  · simp [CalibrationModel.stagger_from_centre_px, CalibrationModel.px_to_mm]

/-- Witness for C8 at the sample calibration (10 px/mm, centre 500). -/
theorem C8_calibration_algebra_witness :
    0 < calSample.px_per_mm ∧
    (calSample.mm_to_px (calSample.px_to_mm 100) = 100 ∧
     calSample.stagger_from_centre_px calSample.track_centre_x_px = 0 ∧
     calSample.stagger_from_centre_px (calSample.track_centre_x_px + 100) = 100 / calSample.px_per_mm) :=
  ⟨by decide, C8_calibration_algebra calSample 100 100 (by decide)⟩

/-- C6: when the candidate's confidence is below the configured
minimum, `compute` returns a Measurement with both physical fields
absent and the confidence carried through unchanged, regardless of the
candidate's geometry. -/
theorem C6_low_confidence_absent_fields (cal : CalibrationModel) (cfg : ProcessingConfig)
    (candidate : WireCandidate) (ox oy : ℤ)
    (h : candidate.confidence < cfg.min_detection_confidence) :
    MeasurementEngine.compute cal cfg candidate ox oy =
      { frame_id := candidate.frame_id
        timestamp_ms := candidate.timestamp_ms
        stagger_mm := none
        diameter_mm := none
        confidence := candidate.confidence } := by
  simp [MeasurementEngine.compute, h]

/-- Witness for C6: the sample candidate against a minimum-confidence
threshold just above its confidence. -/
theorem C6_low_confidence_absent_fields_witness :
    candSample.confidence < (⟨2⟩ : ProcessingConfig).min_detection_confidence ∧
    MeasurementEngine.compute calSample ⟨2⟩ candSample 3 4 =
      { frame_id := candSample.frame_id
        timestamp_ms := candSample.timestamp_ms
        stagger_mm := none
        diameter_mm := none
        confidence := candSample.confidence } :=
  ⟨by decide, C6_low_confidence_absent_fields calSample ⟨2⟩ candSample 3 4 (by decide)⟩

/-- C7: when the candidate's confidence is at or above the minimum, the
returned Measurement carries the bounding box and the centre translated
into full-frame coordinates (ROI offsets added), its stagger equals
`stagger_from_centre_px` of the translated centre x, and its diameter
equals `px_to_mm diameter_px`, absent exactly when `diameter_px ≤ 0`;
frame id, timestamp and confidence are carried through. -/
theorem C7_full_frame_translation (cal : CalibrationModel) (cfg : ProcessingConfig)
    (candidate : WireCandidate) (ox oy : ℤ)
    (h : cfg.min_detection_confidence ≤ candidate.confidence) :
    (MeasurementEngine.compute cal cfg candidate ox oy).wire_bbox =
      some (candidate.bbox_x + ox, candidate.bbox_y + oy, candidate.bbox_w, candidate.bbox_h) ∧
    (MeasurementEngine.compute cal cfg candidate ox oy).wire_centre_px =
      some (candidate.centre_x + (ox : ℚ), candidate.centre_y + (oy : ℚ)) ∧
    (MeasurementEngine.compute cal cfg candidate ox oy).stagger_mm =
      some (cal.stagger_from_centre_px (candidate.centre_x + (ox : ℚ))) ∧
    ((MeasurementEngine.compute cal cfg candidate ox oy).diameter_mm = none ↔
      candidate.diameter_px ≤ 0) ∧
    (0 < candidate.diameter_px →
      (MeasurementEngine.compute cal cfg candidate ox oy).diameter_mm =
        some (cal.px_to_mm candidate.diameter_px)) ∧
    (MeasurementEngine.compute cal cfg candidate ox oy).confidence = candidate.confidence ∧
    (MeasurementEngine.compute cal cfg candidate ox oy).frame_id = candidate.frame_id ∧
    (MeasurementEngine.compute cal cfg candidate ox oy).timestamp_ms = candidate.timestamp_ms := by
  have hnl : ¬ candidate.confidence < cfg.min_detection_confidence := not_lt.mpr h
  unfold MeasurementEngine.compute
  rw [if_neg hnl]
  refine ⟨rfl, rfl, rfl, ?_, ?_, rfl, rfl, rfl⟩
  · by_cases hpos : 0 < candidate.diameter_px
    · simp [hpos, not_le.mpr hpos]
    · simp [hpos, not_lt.mp hpos]
  · intro hpos
    simp [hpos]

/-- Witness for C7 at the sample candidate, calibration and offsets. -/
theorem C7_full_frame_translation_witness :
    (⟨1⟩ : ProcessingConfig).min_detection_confidence ≤ candSample.confidence ∧
    ((MeasurementEngine.compute calSample ⟨1⟩ candSample 3 4).wire_bbox =
      some (candSample.bbox_x + 3, candSample.bbox_y + 4, candSample.bbox_w, candSample.bbox_h) ∧
     (MeasurementEngine.compute calSample ⟨1⟩ candSample 3 4).wire_centre_px =
      some (candSample.centre_x + ((3 : ℤ) : ℚ), candSample.centre_y + ((4 : ℤ) : ℚ)) ∧
     (MeasurementEngine.compute calSample ⟨1⟩ candSample 3 4).stagger_mm =
      some (calSample.stagger_from_centre_px (candSample.centre_x + ((3 : ℤ) : ℚ))) ∧
     ((MeasurementEngine.compute calSample ⟨1⟩ candSample 3 4).diameter_mm = none ↔
      candSample.diameter_px ≤ 0) ∧
     (0 < candSample.diameter_px →
      (MeasurementEngine.compute calSample ⟨1⟩ candSample 3 4).diameter_mm =
        some (calSample.px_to_mm candSample.diameter_px)) ∧
     (MeasurementEngine.compute calSample ⟨1⟩ candSample 3 4).confidence = candSample.confidence ∧
     (MeasurementEngine.compute calSample ⟨1⟩ candSample 3 4).frame_id = candSample.frame_id ∧
     (MeasurementEngine.compute calSample ⟨1⟩ candSample 3 4).timestamp_ms = candSample.timestamp_ms) :=
  ⟨by decide, C7_full_frame_translation calSample ⟨1⟩ candSample 3 4 (by decide)⟩

/- ------------------------------------------------------------------
   rules/thresholds.py and rules/engine.py — RulesEngine
------------------------------------------------------------------- -/

structure StaggerThresholds where
  warning_mm : ℚ
  critical_mm : ℚ
deriving DecidableEq, Repr

structure DiameterThresholds where
  min_warning_mm : ℚ
  min_critical_mm : ℚ
  max_warning_mm : ℚ
  max_critical_mm : ℚ
deriving DecidableEq, Repr

structure Thresholds where
  stagger : StaggerThresholds
  diameter : DiameterThresholds
deriving DecidableEq, Repr

/-- `RulesEngine._check_stagger`, called with `val = m.stagger_mm`
(the caller guarantees presence): critical first, then warning, each
boundary-inclusive; the threshold recorded is sign-matched to the
measured direction. -/
def RulesEngine.check_stagger (t : StaggerThresholds) (m : Measurement) (val : ℚ) : List Anomaly :=
  let abs_val := |val|
  let direction := if 0 ≤ val then "RIGHT" else "LEFT"
  if t.critical_mm ≤ abs_val then
    [{ frame_id := m.frame_id, timestamp_ms := m.timestamp_ms,
       anomaly_type := "STAGGER_" ++ direction, value := val,
       threshold := if 0 ≤ val then t.critical_mm else -t.critical_mm,
       severity := "CRITICAL" }]
  else if t.warning_mm ≤ abs_val then
    [{ frame_id := m.frame_id, timestamp_ms := m.timestamp_ms,
       anomaly_type := "STAGGER_" ++ direction, value := val,
       threshold := if 0 ≤ val then t.warning_mm else -t.warning_mm,
       severity := "WARNING" }]
  else []

/-- `RulesEngine._check_diameter`, called with `val = m.diameter_mm`:
the low side and the high side are evaluated independently and their
results concatenated; each side is critical-then-warning,
boundary-inclusive. -/
def RulesEngine.check_diameter (t : DiameterThresholds) (m : Measurement) (val : ℚ) : List Anomaly :=
  (if val ≤ t.min_critical_mm then
    [{ frame_id := m.frame_id, timestamp_ms := m.timestamp_ms,
       anomaly_type := "DIAMETER_LOW", value := val,
       threshold := t.min_critical_mm, severity := "CRITICAL" }]
   else if val ≤ t.min_warning_mm then
    [{ frame_id := m.frame_id, timestamp_ms := m.timestamp_ms,
       anomaly_type := "DIAMETER_LOW", value := val,
       threshold := t.min_warning_mm, severity := "WARNING" }]
   else []) ++
  (if t.max_critical_mm ≤ val then
    [{ frame_id := m.frame_id, timestamp_ms := m.timestamp_ms,
       anomaly_type := "DIAMETER_HIGH", value := val,
       threshold := t.max_critical_mm, severity := "CRITICAL" }]
   else if t.max_warning_mm ≤ val then
    [{ frame_id := m.frame_id, timestamp_ms := m.timestamp_ms,
       anomaly_type := "DIAMETER_HIGH", value := val,
       threshold := t.max_warning_mm, severity := "WARNING" }]
   else [])

/-- `RulesEngine.evaluate`: stagger anomalies (if the field is present)
followed by diameter anomalies (if the field is present). -/
def RulesEngine.evaluate (t : Thresholds) (m : Measurement) : List Anomaly :=
  (match m.stagger_mm with
   | some val => RulesEngine.check_stagger t.stagger m val
   | none => []) ++
  (match m.diameter_mm with
   | some val => RulesEngine.check_diameter t.diameter m val
   | none => [])

/-- An anomaly produced for the stagger check, by its recorded type. -/
def isStaggerAnomaly (a : Anomaly) : Bool :=
  a.anomaly_type == "STAGGER_RIGHT" || a.anomaly_type == "STAGGER_LEFT"

lemma filter_stagger_check_diameter (t : DiameterThresholds) (m : Measurement) (val : ℚ) :
    (RulesEngine.check_diameter t m val).filter isStaggerAnomaly = [] := by
  unfold RulesEngine.check_diameter
  split_ifs <;> simp [isStaggerAnomaly]

lemma filter_stagger_check_stagger (t : StaggerThresholds) (m : Measurement) (val : ℚ) :
    (RulesEngine.check_stagger t m val).filter isStaggerAnomaly =
      RulesEngine.check_stagger t m val := by
  unfold RulesEngine.check_stagger
  by_cases hv : 0 ≤ val <;> simp only [hv, if_true, if_false, reduceIte] <;>
    split_ifs <;> simp [isStaggerAnomaly]

/-- C5: when `stagger_mm` is present, `evaluate` emits exactly the
stagger anomalies produced by the stagger check — never more than one:
one CRITICAL anomaly with direction-signed threshold when
`critical_mm ≤ |val|` (boundary-inclusive); otherwise one WARNING
anomaly when `warning_mm ≤ |val|` (boundary-inclusive); otherwise
none. -/
theorem C5_stagger_anomaly_exclusive (t : Thresholds) (m : Measurement) (val : ℚ)
    (hstag : m.stagger_mm = some val) :
    (RulesEngine.evaluate t m).filter isStaggerAnomaly =
      RulesEngine.check_stagger t.stagger m val ∧
    (RulesEngine.check_stagger t.stagger m val).length ≤ 1 ∧
    (t.stagger.critical_mm ≤ |val| →
      RulesEngine.check_stagger t.stagger m val =
        [{ frame_id := m.frame_id, timestamp_ms := m.timestamp_ms,
           anomaly_type := "STAGGER_" ++ (if 0 ≤ val then "RIGHT" else "LEFT"),
           value := val,
           threshold := if 0 ≤ val then t.stagger.critical_mm else -t.stagger.critical_mm,
           severity := "CRITICAL" }]) ∧
    (|val| < t.stagger.critical_mm → t.stagger.warning_mm ≤ |val| →
      RulesEngine.check_stagger t.stagger m val =
        [{ frame_id := m.frame_id, timestamp_ms := m.timestamp_ms,
           anomaly_type := "STAGGER_" ++ (if 0 ≤ val then "RIGHT" else "LEFT"),
           value := val,
           threshold := if 0 ≤ val then t.stagger.warning_mm else -t.stagger.warning_mm,
           severity := "WARNING" }]) ∧
    (|val| < t.stagger.critical_mm → |val| < t.stagger.warning_mm →
      RulesEngine.check_stagger t.stagger m val = []) := by
  refine ⟨?_, ?_, ?_, ?_, ?_⟩
  · unfold RulesEngine.evaluate
    rw [hstag, List.filter_append, filter_stagger_check_stagger]
    cases hdia : m.diameter_mm with
    | none => simp
    | some d => simp [filter_stagger_check_diameter]
  · unfold RulesEngine.check_stagger
    by_cases h1 : t.stagger.critical_mm ≤ |val| <;>
      by_cases h2 : t.stagger.warning_mm ≤ |val| <;> simp [h1, h2]
  · intro hcrit
    unfold RulesEngine.check_stagger
    rw [if_pos hcrit]
  · intro hncrit hwarn
    unfold RulesEngine.check_stagger
    rw [if_neg (not_le.mpr hncrit), if_pos hwarn]
  · intro hncrit hnwarn
    unfold RulesEngine.check_stagger
    rw [if_neg (not_le.mpr hncrit), if_neg (not_le.mpr hnwarn)]

/-- Sample thresholds: stagger warning 150 mm / critical 250 mm,
diameter low 10/8 mm, high 16/17 mm. -/
def thrSample : Thresholds :=
  { stagger := { warning_mm := 150, critical_mm := 250 },
    diameter := { min_warning_mm := 10, min_critical_mm := 8,
                  max_warning_mm := 16, max_critical_mm := 17 } }

/-- Sample measurement with a stagger exactly at the warning
boundary. -/
def msmStagger150 : Measurement :=
  { frame_id := 3, timestamp_ms := 99, stagger_mm := some 150,
    diameter_mm := none, confidence := 1 }

/-- Witness for C5 at a stagger of exactly the 150 mm warning
boundary. -/
theorem C5_stagger_anomaly_exclusive_witness :
    msmStagger150.stagger_mm = some 150 ∧
    ((RulesEngine.evaluate thrSample msmStagger150).filter isStaggerAnomaly =
      RulesEngine.check_stagger thrSample.stagger msmStagger150 150 ∧
     (RulesEngine.check_stagger thrSample.stagger msmStagger150 150).length ≤ 1 ∧
     (thrSample.stagger.critical_mm ≤ |(150 : ℚ)| →
      RulesEngine.check_stagger thrSample.stagger msmStagger150 150 =
        [{ frame_id := msmStagger150.frame_id, timestamp_ms := msmStagger150.timestamp_ms,
           anomaly_type := "STAGGER_" ++ (if (0 : ℚ) ≤ 150 then "RIGHT" else "LEFT"),
           value := 150,
           threshold := if (0 : ℚ) ≤ 150 then thrSample.stagger.critical_mm else -thrSample.stagger.critical_mm,
           severity := "CRITICAL" }]) ∧
     (|(150 : ℚ)| < thrSample.stagger.critical_mm → thrSample.stagger.warning_mm ≤ |(150 : ℚ)| →
      RulesEngine.check_stagger thrSample.stagger msmStagger150 150 =
        [{ frame_id := msmStagger150.frame_id, timestamp_ms := msmStagger150.timestamp_ms,
           anomaly_type := "STAGGER_" ++ (if (0 : ℚ) ≤ 150 then "RIGHT" else "LEFT"),
           value := 150,
           threshold := if (0 : ℚ) ≤ 150 then thrSample.stagger.warning_mm else -thrSample.stagger.warning_mm,
           severity := "WARNING" }]) ∧
     (|(150 : ℚ)| < thrSample.stagger.critical_mm → |(150 : ℚ)| < thrSample.stagger.warning_mm →
      RulesEngine.check_stagger thrSample.stagger msmStagger150 150 = [])) :=
  ⟨by decide, C5_stagger_anomaly_exclusive thrSample msmStagger150 150 (by decide)⟩

/- ------------------------------------------------------------------
   processing/detector.py — WireDetector
------------------------------------------------------------------- -/

/-- A ProcessedFrame as the detector consumes it: frame identity plus
the shape of the ROI image (the pixel payload itself is read only by
the opaque numeric kernels, which are oracle parameters below). -/
structure ProcessedFrame where
  frame_id : ℕ
  timestamp_ms : ℚ
  roi_w : ℤ
  roi_h : ℤ
deriving DecidableEq, Repr

/-- A line segment (x1, y1, x2, y2) with the integer endpoints
cv2.HoughLinesP returns. -/
structure Seg where
  x1 : ℤ
  y1 : ℤ
  x2 : ℤ
  y2 : ℤ
deriving DecidableEq, Repr

instance : Inhabited Seg := ⟨⟨0, 0, 0, 0⟩⟩

/-- Vertical midpoint `(y1 + y2) / 2` of a segment. -/
def Seg.midY (l : Seg) : ℚ := ((l.y1 + l.y2 : ℤ) : ℚ) / 2

/-- Squared length `(x2 - x1)**2 + (y2 - y1)**2`, the key of the
cluster-representative choice. -/
def Seg.lenSq (l : Seg) : ℤ := (l.x2 - l.x1) ^ 2 + (l.y2 - l.y1) ^ 2

/-- `WireDetector._filter_horizontal`: keep segments within ±30° of
horizontal.  The source computes `abs(degrees(atan2(dy, dx)))`
normalised into [0°, 90°] and compares with 30.0; for integer
endpoints that comparison is exactly `3·dy² ≤ dx²` (tan² 30° = 1/3,
and `dx² = 3·dy²` has no nonzero integer solutions, so the boundary
never falls on a representable segment). -/
def filter_horizontal (lines : List Seg) : List Seg :=
  lines.filter (fun l => decide (3 * (l.y2 - l.y1) ^ 2 ≤ (l.x2 - l.x1) ^ 2))

/-- One step of `_cluster_lines`' greedy placement: the segment joins
the first cluster whose first member (the code's `cluster[0]`) has a
mid-Y within the 8 px tolerance, else it opens a new cluster at the
end. -/
def placeLine (line : Seg) : List (List Seg) → List (List Seg)
  | [] => [[line]]
  | c :: rest =>
    if |line.midY - (c.headD default).midY| ≤ 8 then (c ++ [line]) :: rest
    else c :: placeLine line rest

/-- Stable insertion into a list sorted by mid-Y.  Python's `sorted`
is stable, and a stable sort by a fixed key is unique, so this
insertion sort computes the same list. -/
def insertByMidY (l : Seg) : List Seg → List Seg
  | [] => [l]
  | x :: xs => if x.midY < l.midY then x :: insertByMidY l xs else l :: x :: xs

/-- Stable sort of segments by mid-Y (the code's
`sorted(lines, key=lambda l: (l[1] + l[3]) / 2)`). -/
def sortByMidY : List Seg → List Seg
  | [] => []
  | x :: xs => insertByMidY x (sortByMidY xs)

/-- `WireDetector._cluster_lines`: sort by mid-Y, place greedily, then
return each cluster's longest member (Python `max` keeps the first of
equal keys, as does this fold). -/
def cluster_lines (lines : List Seg) : List Seg :=
  let clusters := (sortByMidY lines).foldl (fun cs l => placeLine l cs) []
  clusters.map (fun c =>
    c.foldl (fun best l => if best.lenSq < l.lenSq then l else best) (c.headD default))

/-- `WireDetector._elect_lowest_wire`: the segment whose midpoint has
the greatest Y (Python `max` keeps the first of equal keys, as does
this fold). -/
def elect_lowest_wire (lines : List Seg) : Seg :=
  lines.foldl (fun best l => if best.midY < l.midY then l else best) (lines.headD default)

/-- The zero-confidence candidate `WireDetector._empty`: only frame id
and timestamp populated. -/
def WireDetector.empty (pf : ProcessedFrame) : WireCandidate :=
  { frame_id := pf.frame_id, timestamp_ms := pf.timestamp_ms, confidence := 0 }

/-- `WireDetector._build_candidate`.  `diameter_px` is the
`_gaussian_diameter` estimate at the elected line's midpoint and
`line_len` the value of `math.hypot(x2 - x1, y2 - y1)`; both are
supplied as oracle values by `WireDetector.detect`. -/
def build_candidate (pf : ProcessedFrame) (line : Seg)
    (diameter_px : ℚ) (line_len : ℚ) : WireCandidate :=
  let w := pf.roi_w
  let h := pf.roi_h
  let cx : ℚ := ((line.x1 + line.x2 : ℤ) : ℚ) / 2
  let cy : ℚ := ((line.y1 + line.y2 : ℤ) : ℚ) / 2
  let pad : ℤ := max (pyInt (diameter_px / 2) + 2) 4
  let bx : ℤ := max 0 (min line.x1 line.x2 - pad)
  let by0 : ℤ := max 0 (pyInt cy - pad)
  let bw : ℤ := min (w - bx) (|line.x2 - line.x1| + 2 * pad)
  let bh : ℤ := min (h - by0) (2 * pad)
  let confidence : ℚ := min 1 (line_len / ((max w 1 : ℤ) : ℚ))
  { frame_id := pf.frame_id, timestamp_ms := pf.timestamp_ms,
    bbox_x := bx, bbox_y := by0, bbox_w := bw, bbox_h := bh,
    centre_x := cx, centre_y := cy, diameter_px := diameter_px,
    confidence := confidence }

/-- `WireDetector.detect`.  `houghLines` is the oracle standing for
`_find_hough_lines(pf.roi_image)` (cv2.Canny followed by
cv2.HoughLinesP): `none` when no line was found — in particular on a
zero-variance image, whose Canny edge map is empty.  `diam` and
`line_len` stand for the `_gaussian_diameter` and `math.hypot`
evaluations on the elected segment. -/
def WireDetector.detect (pf : ProcessedFrame) (houghLines : Option (List Seg))
    (diam : Seg → ℚ) (line_len : Seg → ℚ) : WireCandidate :=
  match houghLines with
  | none => WireDetector.empty pf
  | some lines =>
    match filter_horizontal lines with
    | [] => WireDetector.empty pf
    | h :: t =>
      let best := elect_lowest_wire (cluster_lines (h :: t))
      build_candidate pf best (diam best) (line_len best)

/-- The contiguous-edge-span fallback in `_gaussian_diameter`'s
exception handler: `edge_rows[-1] - edge_rows[0] + 1` when at least
two edge rows were marked in the probe column, else the 4.0 px
default.  `edgeRows` is the ascending row-index list produced by
`np.where` on the Canny output. -/
def edge_span_fallback (edgeRows : List ℕ) : ℚ :=
  if 2 ≤ edgeRows.length then
    ((edgeRows.getLastD 0 : ℤ) : ℚ) - ((edgeRows.headD 0 : ℤ) : ℚ) + 1
  else 4

/-- `WireDetector._gaussian_diameter` over the extracted vertical
profile `col = img[y0:y1, cx]`.  Oracle parameters: `fitSigma` is
`some σ` when `scipy.optimize.curve_fit` converges with fitted sigma
`σ`, `none` when it raises; `edgeRows` is the Canny edge-row list the
exception handler probes.  The control flow is embedded exactly: a
short (< 5 samples) or featureless (peak − baseline < 5) profile
returns the fixed 4.0 px default immediately; a converged fit returns
FWHM = 2.355·|σ| clamped to [1, 2·search_half]; only a failed fit
reaches the edge-span fallback. -/
def gaussian_diameter (col : List ℚ) (fitSigma : Option ℚ) (edgeRows : List ℕ)
    (search_half : ℚ) : ℚ :=
  if col.length < 5 then 4
  else
    let amp0 := col.foldl max (col.headD 0)
    let baseline0 := col.foldl min (col.headD 0)
    if amp0 - baseline0 < 5 then 4
    else
      match fitSigma with
      | some sigma => max 1 (min (2355 / 1000 * |sigma|) (search_half * 2))
      | none => edge_span_fallback edgeRows

/-- C3 counterexample: the 5-sample profile of constant value 10 is
flat (peak − baseline = 0 < 5) and the narrow-column edge span [2, 11]
would yield 10 px, yet `_gaussian_diameter` returns the fixed 4.0 px
default — the flat-profile branch skips the edge-span fallback that
the claim promises, even with a convergent-looking fit available. -/
theorem C3_flat_profile_counterexample :
    gaussian_diameter [10, 10, 10, 10, 10] (some 3) [2, 11] 25 = 4 ∧
    edge_span_fallback [2, 11] = 10 ∧ (4 : ℚ) ≠ 10 := by
  refine ⟨?_, ?_, by norm_num⟩
  · norm_num [gaussian_diameter, List.foldl]
  · norm_num [edge_span_fallback]

/-- C3 amended: a short (< 5 samples) or too-flat (peak − baseline
< 5) profile returns the fixed 4.0 px default directly; when the
profile has contrast, a converged Gaussian fit returns
FWHM = 2.355·|σ| clamped to [1, 2·search_half]; only a failed fit
falls back to the contiguous edge-span count, which itself returns
the default when fewer than two edge rows exist. -/
theorem C3_diameter_fallback_amended (col : List ℚ) (fitSigma : Option ℚ)
    (edgeRows : List ℕ) (search_half sigma : ℚ) :
    (col.length < 5 → gaussian_diameter col fitSigma edgeRows search_half = 4) ∧
    (5 ≤ col.length →
      col.foldl max (col.headD 0) - col.foldl min (col.headD 0) < 5 →
      gaussian_diameter col fitSigma edgeRows search_half = 4) ∧
    (5 ≤ col.length →
      5 ≤ col.foldl max (col.headD 0) - col.foldl min (col.headD 0) →
      fitSigma = some sigma →
      gaussian_diameter col fitSigma edgeRows search_half =
        max 1 (min (2355 / 1000 * |sigma|) (search_half * 2))) ∧
    (5 ≤ col.length →
      5 ≤ col.foldl max (col.headD 0) - col.foldl min (col.headD 0) →
      fitSigma = none →
      gaussian_diameter col fitSigma edgeRows search_half = edge_span_fallback edgeRows) ∧
    (2 ≤ edgeRows.length →
      edge_span_fallback edgeRows =
        ((edgeRows.getLastD 0 : ℤ) : ℚ) - ((edgeRows.headD 0 : ℤ) : ℚ) + 1) ∧
    (edgeRows.length < 2 → edge_span_fallback edgeRows = 4) := by
  refine ⟨?_, ?_, ?_, ?_, ?_, ?_⟩
  · intro hshort
    simp only [gaussian_diameter]
    rw [if_pos hshort]
  · intro hlen hflat
    simp only [gaussian_diameter]
    rw [if_neg (not_lt.mpr hlen), if_pos hflat]
  · intro hlen hcontrast hfit
    subst hfit
    simp only [gaussian_diameter]
    rw [if_neg (not_lt.mpr hlen), if_neg (not_lt.mpr hcontrast)]
  · intro hlen hcontrast hfit
    subst hfit
    simp only [gaussian_diameter]
    rw [if_neg (not_lt.mpr hlen), if_neg (not_lt.mpr hcontrast)]
  · intro hrows
    simp only [edge_span_fallback]
    rw [if_pos hrows]
  · intro hrows
    simp only [edge_span_fallback]
    rw [if_neg (not_le.mpr hrows)]

/-- Sample profile with contrast 12 ≥ 5 for the C3 witness. -/
def colContrast : List ℚ := [0, 0, 0, 0, 0, 12]

/-- Witness for the amended C3 on a contrasty profile whose fit fails:
the result is the edge-span fallback, here 10 px from rows 2..11. -/
theorem C3_diameter_fallback_amended_witness :
    5 ≤ colContrast.length ∧
    5 ≤ colContrast.foldl max (colContrast.headD 0) -
        colContrast.foldl min (colContrast.headD 0) ∧
    gaussian_diameter colContrast none [2, 11] 25 = edge_span_fallback [2, 11] ∧
    2 ≤ ([2, 11] : List ℕ).length ∧
    edge_span_fallback [2, 11] =
      ((([2, 11] : List ℕ).getLastD 0 : ℤ) : ℚ) - ((([2, 11] : List ℕ).headD 0 : ℤ) : ℚ) + 1 :=
  ⟨by decide, by norm_num [colContrast, List.foldl],
   (C3_diameter_fallback_amended colContrast none [2, 11] 25 0).2.2.2.1
     (by decide) (by norm_num [colContrast, List.foldl]) rfl,
   by decide,
   (C3_diameter_fallback_amended colContrast none [2, 11] 25 0).2.2.2.2.1 (by decide)⟩

/-- Sample frame shape for detector theorems. -/
def pfSample : ProcessedFrame :=
  { frame_id := 1, timestamp_ms := 40, roi_w := 640, roi_h := 480 }

/-- A vertical segment: rejected by the ±30° horizontal filter. -/
def segVertical : Seg := { x1 := 5, y1 := 0, x2 := 5, y2 := 10 }

/-- C4: `detect` is total, and whenever no segment survives — the
Canny + Hough stage found no lines at all, or no segment passed the
near-horizontal filter — it returns the zero-confidence candidate
carrying only frame id and timestamp, every geometry field at its
default; in particular a blank (zero-variance) image, whose Canny edge
map is empty so the Hough stage yields nothing, produces exactly this
candidate and never an error. -/
theorem C4_detect_no_wire_empty (pf : ProcessedFrame) (houghLines : Option (List Seg))
    (diam line_len : Seg → ℚ)
    (h : houghLines = none ∨
         ∃ lines, houghLines = some lines ∧ filter_horizontal lines = []) :
    WireDetector.detect pf houghLines diam line_len = WireDetector.empty pf ∧
    WireDetector.empty pf =
      { frame_id := pf.frame_id, timestamp_ms := pf.timestamp_ms,
        bbox_x := 0, bbox_y := 0, bbox_w := 0, bbox_h := 0,
        centre_x := 0, centre_y := 0, diameter_px := 0, confidence := 0 } := by
  constructor
  · rcases h with h | ⟨lines, hsome, hfilt⟩
    · rw [h]
      rfl
    · rw [hsome]
      unfold WireDetector.detect
      simp [hfilt]
  · rfl

/-- Witness for C4: a single vertical Hough segment is filtered out
and the empty candidate is returned. -/
theorem C4_detect_no_wire_empty_witness :
    (some [segVertical] = (none : Option (List Seg)) ∨
      ∃ lines, some [segVertical] = some lines ∧ filter_horizontal lines = []) ∧
    (WireDetector.detect pfSample (some [segVertical]) (fun _ => 4) (fun _ => 0) =
       WireDetector.empty pfSample ∧
     WireDetector.empty pfSample =
      { frame_id := pfSample.frame_id, timestamp_ms := pfSample.timestamp_ms,
        bbox_x := 0, bbox_y := 0, bbox_w := 0, bbox_h := 0,
        centre_x := 0, centre_y := 0, diameter_px := 0, confidence := 0 }) :=
  ⟨Or.inr ⟨[segVertical], rfl, by decide⟩,
   C4_detect_no_wire_empty pfSample (some [segVertical]) (fun _ => 4) (fun _ => 0)
     (Or.inr ⟨[segVertical], rfl, by decide⟩)⟩

/- ------------------------------------------------------------------
   logging_/log_worker.py — LogWorker
   The bounded `queue.Queue` is modelled as a list of entries with the
   Python semantics of `put_nowait`: `queue.Full` is raised exactly
   when `0 < maxsize ≤ qsize()`.  The background consumer's effect is
   captured as the ordered list of (Measurement, [Anomaly]) pairs it
   hands to `_write` once the producer has stopped pushing; sink
   failures inside `_write` are caught per item and do not change that
   sequence.
------------------------------------------------------------------- -/

/-- A queue entry: a real (Measurement, [Anomaly]) pair or the `_STOP`
sentinel object. -/
inductive QEntry where
  | item (m : Measurement) (anomalies : List Anomaly)
  | stopSentinel
deriving DecidableEq, Repr

/-- The LogWorker state the claims observe: the queue bound, the queue
payload, and the drop counter `_dropped`. -/
structure LogWorkerState where
  maxsize : ℕ
  queue : List QEntry
  dropped : ℕ
deriving DecidableEq, Repr

/-- A fresh worker with the given queue bound (the constructor's
default is 500). -/
def LogWorker.init (maxsize : ℕ) : LogWorkerState :=
  { maxsize := maxsize, queue := [], dropped := 0 }

/-- Python `queue.Queue` fullness: a queue with `maxsize <= 0` is
unbounded. -/
def LogWorkerState.isFull (s : LogWorkerState) : Bool :=
  decide (0 < s.maxsize ∧ s.maxsize ≤ s.queue.length)

/-- `LogWorker.push_measurement`: `put_nowait((m, anomalies or []))`;
on `queue.Full` the item is dropped and `_dropped` incremented (the
periodic warning log has no state effect).  Total — never blocks,
never raises. -/
def LogWorker.push_measurement (s : LogWorkerState) (m : Measurement)
    (anomalies : List Anomaly) : LogWorkerState :=
  if s.isFull then { s with dropped := s.dropped + 1 }
  else { s with queue := s.queue ++ [QEntry.item m anomalies] }

/-- The enqueue step of `LogWorker.stop`: `put_nowait(_STOP)` with
`queue.Full` caught and logged, leaving the state unchanged. -/
def LogWorker.stopEnqueue (s : LogWorkerState) : LogWorkerState :=
  if s.isFull then s else { s with queue := s.queue ++ [QEntry.stopSentinel] }

/-- `LogWorker._drain_remaining`: after the sentinel every remaining
real item is dequeued and written in order; stray sentinels are
skipped. -/
def LogWorker.drainRemaining : List QEntry → List (Measurement × List Anomaly)
  | [] => []
  | QEntry.stopSentinel :: rest => LogWorker.drainRemaining rest
  | QEntry.item m a :: rest => (m, a) :: LogWorker.drainRemaining rest

/-- `LogWorker._run`, projected to the sequence of items handed to
`_write`: each real item is written as it is dequeued; the sentinel
triggers `_drain_remaining` and exit; an empty queue makes the loop
poll without writing, contributing nothing. -/
def LogWorker.runWrites : List QEntry → List (Measurement × List Anomaly)
  | [] => []
  | QEntry.stopSentinel :: rest => LogWorker.drainRemaining rest
  | QEntry.item m a :: rest => (m, a) :: LogWorker.runWrites rest

/-- A sequence of `push_measurement` calls. -/
def LogWorker.pushAll (s : LogWorkerState)
    (items : List (Measurement × List Anomaly)) : LogWorkerState :=
  items.foldl (fun st p => LogWorker.push_measurement st p.1 p.2) s

lemma pushAll_no_drop (items : List (Measurement × List Anomaly)) :
    ∀ (c : ℕ) (q : List QEntry) (d : ℕ), q.length + items.length ≤ c →
    LogWorker.pushAll ⟨c, q, d⟩ items =
      ⟨c, q ++ items.map (fun p => QEntry.item p.1 p.2), d⟩ := by
  induction items with
  | nil =>
    intro c q d h
    simp [LogWorker.pushAll]
  | cons p rest ih =>
    intro c q d h
    have hnf : LogWorkerState.isFull ⟨c, q, d⟩ = false := by
      simp only [LogWorkerState.isFull, decide_eq_false_iff_not]
      simp only [List.length_cons] at h
      omega
    have hstep : LogWorker.push_measurement ⟨c, q, d⟩ p.1 p.2 =
        ⟨c, q ++ [QEntry.item p.1 p.2], d⟩ := by
      simp [LogWorker.push_measurement, hnf]
    have hlen : (q ++ [QEntry.item p.1 p.2]).length + rest.length ≤ c := by
      simp only [List.length_append, List.length_cons] at h ⊢
      simp only [List.length_nil]
      omega
    calc LogWorker.pushAll ⟨c, q, d⟩ (p :: rest)
        = LogWorker.pushAll (LogWorker.push_measurement ⟨c, q, d⟩ p.1 p.2) rest := by
          simp [LogWorker.pushAll]
      _ = LogWorker.pushAll ⟨c, q ++ [QEntry.item p.1 p.2], d⟩ rest := by rw [hstep]
      _ = ⟨c, (q ++ [QEntry.item p.1 p.2]) ++ rest.map (fun p => QEntry.item p.1 p.2), d⟩ :=
          ih c (q ++ [QEntry.item p.1 p.2]) d hlen
      _ = ⟨c, q ++ (p :: rest).map (fun p => QEntry.item p.1 p.2), d⟩ := by
          simp

lemma runWrites_of_items (items : List (Measurement × List Anomaly)) :
    LogWorker.runWrites (items.map (fun p => QEntry.item p.1 p.2)) = items := by
  induction items with
  | nil => rfl
  | cons p rest ih => simp [LogWorker.runWrites, ih]

lemma runWrites_of_items_sent (items : List (Measurement × List Anomaly)) :
    LogWorker.runWrites
      (items.map (fun p => QEntry.item p.1 p.2) ++ [QEntry.stopSentinel]) = items := by
  induction items with
  | nil => rfl
  | cons p rest ih => simp [LogWorker.runWrites, ih]

/-- C1: `push_measurement` is total (never blocks, never raises): on a
full queue the item is dropped with `_dropped` incremented by exactly
one, on a non-full queue it is appended; the drop counter never
decreases across calls; and with capacity 1 and no consumer the first
push is enqueued, the second is dropped with `dropped_count = 1 ≥ 1`
and the queue unchanged. -/
theorem C1_push_measurement_drop_policy (s : LogWorkerState)
    (m m2 : Measurement) (a a2 : List Anomaly) :
    (s.isFull = true →
      LogWorker.push_measurement s m a = { s with dropped := s.dropped + 1 }) ∧
    (s.isFull = false →
      LogWorker.push_measurement s m a =
        { s with queue := s.queue ++ [QEntry.item m a] }) ∧
    s.dropped ≤ (LogWorker.push_measurement s m a).dropped ∧
    (LogWorker.push_measurement (LogWorker.init 1) m a).queue = [QEntry.item m a] ∧
    (LogWorker.push_measurement (LogWorker.init 1) m a).dropped = 0 ∧
    (LogWorker.push_measurement
      (LogWorker.push_measurement (LogWorker.init 1) m a) m2 a2).dropped = 1 ∧
    (LogWorker.push_measurement
      (LogWorker.push_measurement (LogWorker.init 1) m a) m2 a2).queue =
      [QEntry.item m a] := by
  refine ⟨?_, ?_, ?_, ?_, ?_, ?_, ?_⟩
  · intro hf
    simp [LogWorker.push_measurement, hf]
  · intro hnf
    simp [LogWorker.push_measurement, hnf]
  · by_cases hf : s.isFull <;> simp [LogWorker.push_measurement, hf]
  · simp [LogWorker.push_measurement, LogWorker.init, LogWorkerState.isFull]
  · simp [LogWorker.push_measurement, LogWorker.init, LogWorkerState.isFull]
  · simp [LogWorker.push_measurement, LogWorker.init, LogWorkerState.isFull]
  · simp [LogWorker.push_measurement, LogWorker.init, LogWorkerState.isFull]

/-- Sample measurement for worker and session witnesses. -/
def msmSample : Measurement :=
  { frame_id := 1, timestamp_ms := 40, stagger_mm := some 10,
    diameter_mm := none, confidence := 1 }

/-- A capacity-1 worker whose single slot is occupied. -/
def workerFull : LogWorkerState :=
  { maxsize := 1, queue := [QEntry.item msmSample []], dropped := 0 }

/-- Witness for C1: pushing into the occupied capacity-1 worker drops
the item and bumps the counter. -/
theorem C1_push_measurement_drop_policy_witness :
    workerFull.isFull = true ∧
    LogWorker.push_measurement workerFull msmSample [] =
      { workerFull with dropped := workerFull.dropped + 1 } :=
  ⟨by decide,
   (C1_push_measurement_drop_policy workerFull msmSample msmSample [] []).1 (by decide)⟩

/-- C2: pushing N items into a worker whose capacity is at least N and
then stopping drops nothing (`dropped_count = 0`) and hands exactly
those N items, in order, to the sinks: the consumer drains everything
still queued ahead of (or despite a refused) sentinel before
exiting. -/
theorem C2_clean_stop_drains_all (items : List (Measurement × List Anomaly)) (c : ℕ)
    (hcap : items.length ≤ c) :
    (LogWorker.stopEnqueue (LogWorker.pushAll (LogWorker.init c) items)).dropped = 0 ∧
    LogWorker.runWrites
      (LogWorker.stopEnqueue (LogWorker.pushAll (LogWorker.init c) items)).queue = items ∧
    (LogWorker.runWrites
      (LogWorker.stopEnqueue (LogWorker.pushAll (LogWorker.init c) items)).queue).length =
      items.length := by
  have hpush : LogWorker.pushAll (LogWorker.init c) items =
      ⟨c, items.map (fun p => QEntry.item p.1 p.2), 0⟩ :=
    pushAll_no_drop items c [] 0 (by simpa using hcap)
  rw [hpush]
  by_cases hful :
      LogWorkerState.isFull ⟨c, items.map (fun p => QEntry.item p.1 p.2), 0⟩ = true
  · simp [LogWorker.stopEnqueue, hful, runWrites_of_items]
  · simp only [Bool.not_eq_true] at hful
    simp [LogWorker.stopEnqueue, hful, runWrites_of_items_sent]

/-- Witness for C2: one item, capacity 2. -/
theorem C2_clean_stop_drains_all_witness :
    ([(msmSample, [])] : List (Measurement × List Anomaly)).length ≤ 2 ∧
    ((LogWorker.stopEnqueue (LogWorker.pushAll (LogWorker.init 2) [(msmSample, [])])).dropped = 0 ∧
     LogWorker.runWrites
      (LogWorker.stopEnqueue (LogWorker.pushAll (LogWorker.init 2) [(msmSample, [])])).queue =
      [(msmSample, [])] ∧
     (LogWorker.runWrites
      (LogWorker.stopEnqueue (LogWorker.pushAll (LogWorker.init 2) [(msmSample, [])])).queue).length =
      ([(msmSample, [])] : List (Measurement × List Anomaly)).length) :=
  ⟨by decide, C2_clean_stop_drains_all [(msmSample, [])] 2 (by decide)⟩

/- ------------------------------------------------------------------
   logging_/session.py — SessionLogger
   The per-session SQLite store is modelled as in-memory tables (lists
   of rows); wall-clock time and the random session id are oracle
   inputs to `start`/`stop`; `_conn` is modelled by the `connOpen`
   flag.
------------------------------------------------------------------- -/

/-- `SessionInfo` from `core/models.py`. -/
structure SessionInfo where
  session_id : String
  source : String
  started_at_ms : ℚ
  ended_at_ms : Option ℚ := none
  total_frames : ℕ := 0
  anomaly_count : ℕ := 0
  notes : String := ""
deriving DecidableEq, Repr

/-- One row of the `sessions` table. -/
structure SessionRow where
  session_id : String
  source : String
  started_at_ms : ℚ
  ended_at_ms : Option ℚ := none
  total_frames : ℕ := 0
  anomaly_count : ℕ := 0
  notes : String := ""
deriving DecidableEq, Repr

/-- The SessionLogger state: the constructor fields, the `_conn`
open/closed flag, the running `_info`, and the tables of the
per-session store (measurement and anomaly rows tagged with the
session id they were inserted under). -/
structure SessionLoggerState where
  source : String
  notes : String := ""
  session_id : String := ""
  connOpen : Bool := false
  info : Option SessionInfo := none
  sessionsTable : List SessionRow := []
  measurementRows : List (String × Measurement) := []
  anomalyRows : List (String × Anomaly) := []
deriving DecidableEq, Repr

/-- `SessionLogger.__init__`: no connection, no info, no store yet. -/
def SessionLogger.init (source notes : String) : SessionLoggerState :=
  { source := source, notes := notes }

/-- `SessionLogger.start`: creates the fresh per-session store,
inserts the session row with `ended_at` NULL, opens the connection and
builds the in-memory SessionInfo.  `sid` (strftime + uuid suffix) and
`startedAt` (epoch ms) are wall-clock/randomness oracles. -/
def SessionLogger.start (s : SessionLoggerState) (sid : String) (startedAt : ℚ) :
    SessionLoggerState :=
  { s with
    session_id := sid
    connOpen := true
    sessionsTable := [{ session_id := sid, source := s.source,
                        started_at_ms := startedAt, notes := s.notes }]
    measurementRows := []
    anomalyRows := []
    info := some { session_id := sid, source := s.source,
                   started_at_ms := startedAt, notes := s.notes } }

/-- `SessionLogger.log_measurement`: returns immediately when `_conn
is None`; otherwise inserts the row and, since a dataclass instance is
always truthy, increments `total_frames` exactly when `_info` is
present. -/
def SessionLogger.log_measurement (s : SessionLoggerState) (m : Measurement) :
    SessionLoggerState :=
  if s.connOpen = false then s
  else
    { s with
      measurementRows := s.measurementRows ++ [(s.session_id, m)]
      info := match s.info with
              | some i => some { i with total_frames := i.total_frames + 1 }
              | none => none }

/-- `SessionLogger.log_anomaly`: the same shape for the anomaly row
and `anomaly_count`. -/
def SessionLogger.log_anomaly (s : SessionLoggerState) (a : Anomaly) :
    SessionLoggerState :=
  if s.connOpen = false then s
  else
    { s with
      anomalyRows := s.anomalyRows ++ [(s.session_id, a)]
      info := match s.info with
              | some i => some { i with anomaly_count := i.anomaly_count + 1 }
              | none => none }

/-- Result of `SessionLogger.stop`: the finalized state and
SessionInfo, or the fatal `RuntimeError` raised when the session was
never started (or already stopped). -/
inductive StopResult where
  | ok (s : SessionLoggerState) (info : SessionInfo)
  | notStartedError
deriving DecidableEq, Repr

/-- `SessionLogger.stop`: raises when `_conn` or `_info` is absent;
otherwise writes `ended_at` and the final counters into the session
row, closes the connection and returns the finalized info.  `endedAt`
is the wall-clock oracle. -/
def SessionLogger.stop (s : SessionLoggerState) (endedAt : ℚ) : StopResult :=
  if s.connOpen = false then StopResult.notStartedError
  else
    match s.info with
    | none => StopResult.notStartedError
    | some i =>
      let i2 : SessionInfo := { i with ended_at_ms := some endedAt }
      let table := s.sessionsTable.map (fun r =>
        if r.session_id = s.session_id then
          { r with ended_at_ms := some endedAt, total_frames := i.total_frames,
                   anomaly_count := i.anomaly_count }
        else r)
      StopResult.ok
        { s with connOpen := false, sessionsTable := table, info := some i2 } i2

/-- A sequence of `log_measurement` calls. -/
def SessionLogger.logAll (s : SessionLoggerState) (ms : List Measurement) :
    SessionLoggerState :=
  ms.foldl SessionLogger.log_measurement s

lemma logAll_started (ms : List Measurement) :
    ∀ (s : SessionLoggerState) (i : SessionInfo),
    s.connOpen = true → s.info = some i →
    SessionLogger.logAll s ms =
      { s with
        measurementRows := s.measurementRows ++ ms.map (fun m => (s.session_id, m))
        info := some { i with total_frames := i.total_frames + ms.length } } := by
  induction ms with
  | nil =>
    intro s i hc hi
    obtain ⟨src, nts, sid, conn, info0, st, mr, ar⟩ := s
    obtain ⟨isid, isrc, ist, iend, itot, ianom, ints⟩ := i
    have hi2 : info0 = some ⟨isid, isrc, ist, iend, itot, ianom, ints⟩ := hi
    subst hi2
    simp [SessionLogger.logAll]
  | cons m rest ih =>
    intro s i hc hi
    obtain ⟨src, nts, sid, conn, info0, st, mr, ar⟩ := s
    obtain ⟨isid, isrc, ist, iend, itot, ianom, ints⟩ := i
    have hc2 : conn = true := hc
    subst hc2
    have hi2 : info0 = some ⟨isid, isrc, ist, iend, itot, ianom, ints⟩ := hi
    subst hi2
    have h1 : SessionLogger.logAll
        ⟨src, nts, sid, true, some ⟨isid, isrc, ist, iend, itot, ianom, ints⟩, st, mr, ar⟩
        (m :: rest) =
        SessionLogger.logAll
        ⟨src, nts, sid, true, some ⟨isid, isrc, ist, iend, itot + 1, ianom, ints⟩, st,
         mr ++ [(sid, m)], ar⟩ rest := rfl
    rw [h1,
      ih ⟨src, nts, sid, true, some ⟨isid, isrc, ist, iend, itot + 1, ianom, ints⟩, st,
          mr ++ [(sid, m)], ar⟩
         ⟨isid, isrc, ist, iend, itot + 1, ianom, ints⟩ rfl rfl]
    simp only [List.map_cons, List.append_assoc, List.singleton_append, List.length_cons,
      SessionLoggerState.mk.injEq, SessionInfo.mk.injEq, Option.some.injEq,
      and_true, true_and]
    omega

/-- C9: in a started session each `log_measurement` call increments
`total_frames` by exactly one regardless of the measurement's optional
fields; after `start` followed by N calls the counter equals N exactly
(0 for an immediate stop); and `stop` writes the final counters and
`ended_at` into the session row while closing the connection. -/
theorem C9_total_frames_counter (src nts sid : String) (t t2 : ℚ)
    (ms : List Measurement) (s : SessionLoggerState) (i : SessionInfo) (m : Measurement) :
    (s.connOpen = true → s.info = some i →
      (SessionLogger.log_measurement s m).info =
        some { i with total_frames := i.total_frames + 1 }) ∧
    (SessionLogger.logAll (SessionLogger.start (SessionLogger.init src nts) sid t) ms).info =
      some { session_id := sid, source := src, started_at_ms := t, ended_at_ms := none,
             total_frames := ms.length, anomaly_count := 0, notes := nts } ∧
    SessionLogger.stop
      (SessionLogger.logAll (SessionLogger.start (SessionLogger.init src nts) sid t) ms) t2 =
      StopResult.ok
        { source := src, notes := nts, session_id := sid, connOpen := false,
          info := some { session_id := sid, source := src, started_at_ms := t,
                         ended_at_ms := some t2, total_frames := ms.length,
                         anomaly_count := 0, notes := nts },
          sessionsTable := [{ session_id := sid, source := src, started_at_ms := t,
                              ended_at_ms := some t2, total_frames := ms.length,
                              anomaly_count := 0, notes := nts }],
          measurementRows := ms.map (fun m => (sid, m)),
          anomalyRows := [] }
        { session_id := sid, source := src, started_at_ms := t,
          ended_at_ms := some t2, total_frames := ms.length,
          anomaly_count := 0, notes := nts } := by
  have hlog := logAll_started ms (SessionLogger.start (SessionLogger.init src nts) sid t)
    ⟨sid, src, t, none, 0, 0, nts⟩ rfl rfl
  refine ⟨?_, ?_, ?_⟩
  · intro hc hi
    simp [SessionLogger.log_measurement, hc, hi]
  · rw [hlog]
    simp [SessionLogger.start, SessionLogger.init]
  · rw [hlog]
    simp [SessionLogger.stop, SessionLogger.start, SessionLogger.init]

/-- Sample logger identity strings. -/
def srcSample : String := "cam0"

/-- Sample session notes (empty, the constructor default). -/
def notesSample : String := ""

/-- Sample session id. -/
def sidSample : String := "s1"

/-- Sample anomaly for session witnesses. -/
def anomSample : Anomaly :=
  { frame_id := 1, timestamp_ms := 40, anomaly_type := "STAGGER_RIGHT",
    value := 260, threshold := 250, severity := "CRITICAL" }

/-- A freshly started session state. -/
def sessionStarted : SessionLoggerState :=
  SessionLogger.start (SessionLogger.init srcSample notesSample) sidSample 1000

/-- Witness for C9: one logged measurement in a started session; the
counter reads 1 and stop writes it into the single session row. -/
theorem C9_total_frames_counter_witness :
    sessionStarted.connOpen = true ∧
    sessionStarted.info =
      some { session_id := sidSample, source := srcSample, started_at_ms := 1000,
             ended_at_ms := none, total_frames := 0, anomaly_count := 0,
             notes := notesSample } ∧
    (SessionLogger.log_measurement sessionStarted msmSample).info =
      some { session_id := sidSample, source := srcSample, started_at_ms := 1000,
             ended_at_ms := none, total_frames := 0 + 1, anomaly_count := 0,
             notes := notesSample } ∧
    (SessionLogger.logAll
      (SessionLogger.start (SessionLogger.init srcSample notesSample) sidSample 1000)
      [msmSample]).info =
      some { session_id := sidSample, source := srcSample, started_at_ms := 1000,
             ended_at_ms := none, total_frames := ([msmSample] : List Measurement).length,
             anomaly_count := 0, notes := notesSample } ∧
    SessionLogger.stop
      (SessionLogger.logAll
        (SessionLogger.start (SessionLogger.init srcSample notesSample) sidSample 1000)
        [msmSample]) 2000 =
      StopResult.ok
        { source := srcSample, notes := notesSample, session_id := sidSample,
          connOpen := false,
          info := some { session_id := sidSample, source := srcSample,
                         started_at_ms := 1000, ended_at_ms := some 2000,
                         total_frames := ([msmSample] : List Measurement).length,
                         anomaly_count := 0, notes := notesSample },
          sessionsTable := [{ session_id := sidSample, source := srcSample,
                              started_at_ms := 1000, ended_at_ms := some 2000,
                              total_frames := ([msmSample] : List Measurement).length,
                              anomaly_count := 0, notes := notesSample }],
          measurementRows := ([msmSample] : List Measurement).map (fun m => (sidSample, m)),
          anomalyRows := [] }
        { session_id := sidSample, source := srcSample, started_at_ms := 1000,
          ended_at_ms := some 2000, total_frames := ([msmSample] : List Measurement).length,
          anomaly_count := 0, notes := notesSample } :=
  ⟨rfl, rfl,
   (C9_total_frames_counter srcSample notesSample sidSample 1000 2000 [msmSample]
      sessionStarted ⟨sidSample, srcSample, 1000, none, 0, 0, notesSample⟩ msmSample).1
     rfl rfl,
   (C9_total_frames_counter srcSample notesSample sidSample 1000 2000 [msmSample]
      sessionStarted ⟨sidSample, srcSample, 1000, none, 0, 0, notesSample⟩ msmSample).2.1,
   (C9_total_frames_counter srcSample notesSample sidSample 1000 2000 [msmSample]
      sessionStarted ⟨sidSample, srcSample, 1000, none, 0, 0, notesSample⟩ msmSample).2.2⟩

/-- C10: with no open connection — before `start`, or after `stop` has
closed it (`stop` always leaves the connection closed) — both
`log_measurement` and `log_anomaly` are silent no-ops: the state is
returned unchanged (no row, no counter, and, being total functions, no
exception); yet `stop` itself in that same state is the fatal
`RuntimeError`. -/
theorem C10_closed_session_silent_noop (s : SessionLoggerState) (m : Measurement)
    (a : Anomaly) (t : ℚ) (s2 : SessionLoggerState) (i2 : SessionInfo) :
    (s.connOpen = false →
      SessionLogger.log_measurement s m = s ∧
      SessionLogger.log_anomaly s a = s ∧
      SessionLogger.stop s t = StopResult.notStartedError) ∧
    (SessionLogger.stop s t = StopResult.ok s2 i2 → s2.connOpen = false) := by
  constructor
  · intro hc
    refine ⟨?_, ?_, ?_⟩ <;>
      simp [SessionLogger.log_measurement, SessionLogger.log_anomaly,
            SessionLogger.stop, hc]
  · intro hok
    by_cases hc : s.connOpen = false
    · simp [SessionLogger.stop, hc] at hok
    · have hc2 : s.connOpen = true := by
        revert hc
        cases s.connOpen <;> simp
      cases hinfo : s.info with
      | none =>
        simp [SessionLogger.stop, hc2, hinfo] at hok
      | some i =>
        simp [SessionLogger.stop, hc2, hinfo] at hok
        obtain ⟨h1, -⟩ := hok
        subst h1
        rfl

/-- A never-started logger: the connection is closed. -/
def sessionFresh : SessionLoggerState :=
  SessionLogger.init srcSample notesSample

/-- Witness for C10 on the never-started logger. -/
theorem C10_closed_session_silent_noop_witness :
    sessionFresh.connOpen = false ∧
    (SessionLogger.log_measurement sessionFresh msmSample = sessionFresh ∧
     SessionLogger.log_anomaly sessionFresh anomSample = sessionFresh ∧
     SessionLogger.stop sessionFresh 5 = StopResult.notStartedError) :=
  ⟨rfl,
   (C10_closed_session_silent_noop sessionFresh msmSample anomSample 5 sessionFresh
      ⟨sidSample, srcSample, 1000, none, 0, 0, notesSample⟩).1 rfl⟩
